import Mathlib

/-!
Verification of the scan-result dispatch handler of
`analytical-platform-ingestion-transfer` (`src/var/task/handler.py`).

The handler is shallowly embedded: every external collaborator call
(Secrets Manager, S3 copy/delete, SNS publish, STS) is modelled as a
fallible oracle supplied through a `Collab` record, and each handler
function returns the ordered list of collaborator calls it attempted
(`List Call`) together with the Python exception it raised, if any
(`Option String`, the exception's `str(e)` text).  Python string
operations (`"/" in s`, `s.split("/", 1)`, `s.split("/")[-1]`,
`json.dumps`) are embedded as executable Lean functions on `String`.
-/

/-- Python `"/" in s`. -/
def hasSlash (s : String) : Bool := s.data.contains '/'

/-- Split a character list at the first `'/'`: `none` when no slash occurs. -/
def splitFirstAux : List Char → Option (List Char × List Char)
  | [] => none
  | c :: cs =>
    if c = '/' then some ([], cs)
    else
      match splitFirstAux cs with
      | none => none
      | some (a, b) => some (c :: a, b)

/-- Python `s.split("/", 1)` as a pair (identity in the first component when
no slash occurs; the handler only calls it under a `hasSlash` guard). -/
def splitFirst (s : String) : String × String :=
  match splitFirstAux s.data with
  | none => (s, "")
  | some (a, b) => (⟨a⟩, ⟨b⟩)

/-- Python `s.split("/")[-1]`: the suffix after the last slash. -/
def pyLastSeg (s : String) : String :=
  ⟨(s.data.reverse.takeWhile (fun c => c ≠ '/')).reverse⟩

/-- Python truthiness of an optional string (`None` and `""` are falsy). -/
def pyTruthy : Option String → Bool
  | none => false
  | some s => !s.isEmpty

/-- Python f-string rendering of a possibly-`None` value. -/
def pyStr : Option String → String
  | none => "None"
  | some s => s

/-- Lower-case hexadecimal digit, as produced by CPython's JSON encoder. -/
def hexDigit (n : Nat) : Char :=
  if n < 10 then Char.ofNat (48 + n) else Char.ofNat (87 + n)

/-- Four-digit lower-case hexadecimal rendering. -/
def hex4 (n : Nat) : List Char :=
  [hexDigit (n / 4096 % 16), hexDigit (n / 256 % 16), hexDigit (n / 16 % 16), hexDigit (n % 16)]

/-- One character of CPython `json.dumps` output (default `ensure_ascii=True`:
escapes quotes, backslashes, control characters below 0x20 and everything
above 0x7E, with surrogate pairs beyond the BMP). -/
def jsonEscapeChar (c : Char) : List Char :=
  let n := c.toNat
  if n = 34 then [Char.ofNat 92, Char.ofNat 34]
  else if n = 92 then [Char.ofNat 92, Char.ofNat 92]
  else if n = 10 then [Char.ofNat 92, 'n']
  else if n = 13 then [Char.ofNat 92, 'r']
  else if n = 9 then [Char.ofNat 92, 't']
  else if n = 8 then [Char.ofNat 92, 'b']
  else if n = 12 then [Char.ofNat 92, 'f']
  else if n < 32 ∨ 126 < n then
    if n ≤ 65535 then Char.ofNat 92 :: 'u' :: hex4 n
    else
      (Char.ofNat 92 :: 'u' :: hex4 (55296 + (n - 65536) / 1024)) ++
        (Char.ofNat 92 :: 'u' :: hex4 (56320 + (n - 65536) % 1024))
  else [c]

/-- Python `json.dumps` applied to a string. -/
def jsonDumps (s : String) : String :=
  ⟨(Char.ofNat 34 :: (s.data.map jsonEscapeChar).flatten) ++ [Char.ofNat 34]⟩

/-- One attempted collaborator call, in the order the handler issues them. -/
inductive Call where
  | getSecretCall (secretId : String)
  | copyCall (destBucket srcBucket srcKey destKey acl : String)
  | deleteCall (bucket key : String)
  | publishCall (topicArn subject message : String)
  | stsCall
deriving DecidableEq

/-- Process environment (`os.environ`) and module-load state of `handler.py`.
`timestamp_epoch` is `int(datetime.now().timestamp())` evaluated once at
module import (handler.py line 19). -/
structure Env where
  LANDING_BUCKET_NAME : String
  QUARANTINE_BUCKET : String
  AP_NOTIFICATION_TOPIC_ARN : String
  NOTIFICATION_TOPIC_ARN : String
  timestamp_epoch : Nat

/-- External collaborators: each call may succeed or raise (the `String` is
the raised exception's text). -/
structure Collab where
  getSecret : String → Except String String
  copyObject : String → String → String → String → String → Except String Unit
  deleteObject : String → String → Except String Unit
  publish : String → String → String → Except String Unit
  accountId : Except String String

/-- The inbound GuardDuty scan-result event, after the `.get` extractions of
handler.py lines 37-45 (absent fields become `none`; absent `threats`
defaults to the empty list). -/
structure ScanEvent where
  scanStatus : Option String
  scanResultStatus : Option String
  threats : List String
  bucketName : Option String
  objectKey : Option String
deriving DecidableEq

/-- The handler's structured result. -/
structure Response where
  statusCode : Nat
  body : String
deriving DecidableEq

/-- Python `str(e)` for `TypeError` raised by `"/" in None`. -/
def noneIterError : String := "argument of type 'NoneType' is not iterable"

/-- handler.py lines 123-134: `generate_topic_arn`. -/
def generate_topic_arn (env : Env) (c : Collab) (supplier : Option String) :
    List Call × Except String String :=
  if pyTruthy supplier then
    match c.accountId with
    | .error e => ([Call.stsCall], .error e)
    | .ok acct =>
        ([Call.stsCall],
          .ok ("arn:aws:sns:eu-west-2:" ++ acct ++ ":transfer-service-" ++ supplier.getD ""))
  else
    ([], .ok env.NOTIFICATION_TOPIC_ARN)

/-- Suppliers given the time-partitioned key layout (handler.py line 168). -/
def partitionedSuppliers : List String := ["essex-police"]

/-- handler.py lines 137-190: `process_no_threats_found_file`.  Notes:
when `object_key` has no slash, `uploaded_object` is never assigned and
line 150 raises `NameError`; when the target-bucket secret has no slash,
`bucket_prefix` (here `pfx`) is never assigned and the unconditional log at
line 166 raises `NameError`. -/
def process_no_threats_found_file (env : Env) (c : Collab)
    (bucket_name object_key : Option String) : List Call × Option String :=
  match object_key with
  | none => ([], some noneIterError)
  | some k =>
    if hasSlash k then
      let supplier := (splitFirst k).1
      let uploaded_object := (splitFirst k).2
      let file_name := if hasSlash uploaded_object then pyLastSeg uploaded_object else uploaded_object
      let secretId := "ingestion/sftp/" ++ supplier ++ "/target-bucket"
      match c.getSecret secretId with
      | .error e => ([Call.getSecretCall secretId], some e)
      | .ok tb =>
        if hasSlash tb then
          let target_bucket := (splitFirst tb).1
          let pfx := (splitFirst tb).2
          let destination_object_key :=
            if partitionedSuppliers.contains supplier then
              pfx ++ "/file_land_timestamp=" ++ toString env.timestamp_epoch ++ "/" ++ file_name
            else
              pfx ++ "/" ++ file_name
          match c.copyObject target_bucket env.LANDING_BUCKET_NAME k destination_object_key
              "bucket-owner-full-control" with
          | .error e =>
              ([Call.getSecretCall secretId,
                Call.copyCall target_bucket env.LANDING_BUCKET_NAME k destination_object_key
                  "bucket-owner-full-control"], some e)
          | .ok _ =>
            match c.deleteObject env.LANDING_BUCKET_NAME k with
            | .error e =>
                ([Call.getSecretCall secretId,
                  Call.copyCall target_bucket env.LANDING_BUCKET_NAME k destination_object_key
                    "bucket-owner-full-control",
                  Call.deleteCall env.LANDING_BUCKET_NAME k], some e)
            | .ok _ =>
                ([Call.getSecretCall secretId,
                  Call.copyCall target_bucket env.LANDING_BUCKET_NAME k destination_object_key
                    "bucket-owner-full-control",
                  Call.deleteCall env.LANDING_BUCKET_NAME k], none)
        else
          ([Call.getSecretCall secretId], some "name 'bucket_prefix' is not defined")
    else
      ([], some "name 'uploaded_object' is not defined")

/-- handler.py lines 215-220: the uploader-facing infected-file message
(the adjacent f-string fragments of the source are collapsed into one
literal on each side of the interpolated key). -/
def threats_found_user_message (object_key : String) : String :=
  "Automated Malware Protection has detected malware in the file '" ++ object_key ++
    "'.\n\nThis file has NOT been transferred, please contact us via Support:\nhttps://github.com/ministryofjustice/data-platform-support/issues\n\nMany thanks, Analytical Platform Team."

/-- handler.py lines 227-231: the operations-team infected-file message. -/
def threats_found_ap_message (object_key : String) : String :=
  "Automated Malware Protection has detected malware in the file '" ++ object_key ++
    "'. \n\nThis file has NOT been transferred, The user has been notified.This alert is to the Analytical Platform Team."

/-- handler.py lines 241-243: the access-denied message. -/
def access_denied_message (rendered_key : String) : String :=
  "The Malware Protection for S3 scan process on file " ++ rendered_key ++
    " has failed due to an 'Access Denied' error. The user has not been informed, please investigate this at the first opportunity."

/-- handler.py lines 259-264: the failed-scan message. -/
def failed_scan_message (object_key : String) : String :=
  "The Malware Protection for S3 scan process on file " ++ object_key ++
    " has failed. \n\nPlease retry by uploading your file again. \n\nThis file has NOT been transferred. If failure persists please contact us via Support: \nhttps://github.com/ministryofjustice/data-platform-support/issues \n\nMany thanks, Analytical Platform Team."

/-- handler.py lines 282-288: the unsupported-file message.  It takes no
parameter: the source text never interpolates the object key. -/
def unsupported_message : String :=
  "This file type is not supported and cannot be scanned. \n\nThis file has NOT been transferred.If you believe this file type is supported please contact us via Support: \nhttps://github.com/ministryofjustice/data-platform-support/issues \n\nMany thanks, Analytical Platform Team."

/-- handler.py lines 193-234: `process_threats_found_file`.  The quarantine
`copy_object`/`delete_object` calls (lines 202-207) are commented out in the
source, so no object-store call is issued on this path. -/
def process_threats_found_file (env : Env) (c : Collab)
    (bucket_name object_key : Option String) (threats : List String) :
    List Call × Option String :=
  match object_key with
  | none => ([], some noneIterError)
  | some k =>
    let supplier : Option String := if hasSlash k then some (splitFirst k).1 else none
    match generate_topic_arn env c supplier with
    | (t1, .error e) => (t1, some e)
    | (t1, .ok topic_arn) =>
      let m1 := threats_found_user_message k
      match c.publish topic_arn "🚨 Malware Detection Alert" m1 with
      | .error e => (t1 ++ [Call.publishCall topic_arn "🚨 Malware Detection Alert" m1], some e)
      | .ok _ =>
        let m2 := threats_found_ap_message k
        match c.publish env.AP_NOTIFICATION_TOPIC_ARN "🚨 Malware Detection Alert" m2 with
        | .error e =>
            (t1 ++ [Call.publishCall topic_arn "🚨 Malware Detection Alert" m1,
              Call.publishCall env.AP_NOTIFICATION_TOPIC_ARN "🚨 Malware Detection Alert" m2],
             some e)
        | .ok _ =>
            (t1 ++ [Call.publishCall topic_arn "🚨 Malware Detection Alert" m1,
              Call.publishCall env.AP_NOTIFICATION_TOPIC_ARN "🚨 Malware Detection Alert" m2],
             none)

/-- handler.py lines 237-249: `process_access_denied` (a `None` key renders
as the string `None` in the f-string; no membership test is performed). -/
def process_access_denied (env : Env) (c : Collab) (object_key : Option String) :
    List Call × Option String :=
  let m := access_denied_message (pyStr object_key)
  let subj := "🚨 Analytical Platform Ingestion: Access Denied Alert"
  match c.publish env.AP_NOTIFICATION_TOPIC_ARN subj m with
  | .error e => ([Call.publishCall env.AP_NOTIFICATION_TOPIC_ARN subj m], some e)
  | .ok _ => ([Call.publishCall env.AP_NOTIFICATION_TOPIC_ARN subj m], none)

/-- handler.py lines 252-270: `process_failed_scan`. -/
def process_failed_scan (env : Env) (c : Collab) (object_key : Option String) :
    List Call × Option String :=
  match object_key with
  | none => ([], some noneIterError)
  | some k =>
    let supplier : Option String := if hasSlash k then some (splitFirst k).1 else none
    match generate_topic_arn env c supplier with
    | (t1, .error e) => (t1, some e)
    | (t1, .ok topic_arn) =>
      let m := failed_scan_message k
      let subj := "🚨 Analytical Platform Ingestion: Failed Malware Scan Alert"
      match c.publish topic_arn subj m with
      | .error e => (t1 ++ [Call.publishCall topic_arn subj m], some e)
      | .ok _ => (t1 ++ [Call.publishCall topic_arn subj m], none)

/-- handler.py lines 273-293: `process_unsupported_file`. -/
def process_unsupported_file (env : Env) (c : Collab) (object_key : Option String) :
    List Call × Option String :=
  match object_key with
  | none => ([], some noneIterError)
  | some k =>
    let supplier : Option String := if hasSlash k then some (splitFirst k).1 else none
    match generate_topic_arn env c supplier with
    | (t1, .error e) => (t1, some e)
    | (t1, .ok topic_arn) =>
      let m := unsupported_message
      let subj := "🚨 Analytical Platform Ingestion: Unsupported File Alert"
      match c.publish topic_arn subj m with
      | .error e => (t1 ++ [Call.publishCall topic_arn subj m], some e)
      | .ok _ => (t1 ++ [Call.publishCall topic_arn subj m], none)

/-- The body of the `try` block of `lambda_handler` (handler.py lines 36-113):
returns the attempted calls and either the returned response or the raised
exception's text. -/
def dispatch (env : Env) (c : Collab) (ev : ScanEvent) :
    List Call × Except String Response :=
  let scan_status := ev.scanStatus
  let scan_result_status := ev.scanResultStatus
  let bucket_name := ev.bucketName
  let object_key := ev.objectKey
  if scan_status = some "COMPLETED" then
    if scan_result_status = some "NO_THREATS_FOUND" then
      match process_no_threats_found_file env c bucket_name object_key with
      | (t, some e) => (t, .error e)
      | (t, none) =>
          (t, .ok ⟨200, jsonDumps ("Successfully processed - NO THREATS FOUND in file: " ++
            pyStr object_key ++ " in bucket: " ++ pyStr bucket_name)⟩)
    else if scan_result_status = some "THREATS_FOUND" then
      match process_threats_found_file env c bucket_name object_key ev.threats with
      | (t, some e) => (t, .error e)
      | (t, none) =>
          (t, .ok ⟨200, jsonDumps ("Successfully processed - THREATS FOUND in file: " ++
            pyStr object_key ++ " in bucket: " ++ pyStr bucket_name)⟩)
    else
      ([], .ok ⟨200, jsonDumps ("Successfully processed scan status: " ++ pyStr scan_status ++
        ", result: " ++ pyStr scan_result_status)⟩)
  else if scan_status = some "SKIPPED" then
    if scan_result_status = some "ACCESS_DENIED" then
      match process_access_denied env c object_key with
      | (t, some e) => (t, .error e)
      | (t, none) =>
          (t, .ok ⟨403, jsonDumps ("Error: Access denied to file '" ++ pyStr object_key ++
            "' in '" ++ pyStr bucket_name ++ "'.")⟩)
    else if scan_result_status = some "UNSUPPORTED" then
      match process_unsupported_file env c object_key with
      | (t, some e) => (t, .error e)
      | (t, none) =>
          (t, .ok ⟨415, jsonDumps ("Error: File type is unsupported. Filename: '" ++
            pyStr object_key ++ "'")⟩)
    else
      ([], .ok ⟨200, jsonDumps ("Successfully processed scan status: " ++ pyStr scan_status ++
        ", result: " ++ pyStr scan_result_status)⟩)
  else if scan_status = some "FAILED" then
    match process_failed_scan env c object_key with
    | (t, some e) => (t, .error e)
    | (t, none) =>
        (t, .ok ⟨500, jsonDumps ("Error: Scan failed on file '" ++ pyStr object_key ++ "'.")⟩)
  else
    ([], .ok ⟨200, jsonDumps ("Successfully processed scan status: " ++ pyStr scan_status ++
      ", result: " ++ pyStr scan_result_status)⟩)

/-- handler.py lines 22-120: `lambda_handler`, the `try`/`except` boundary:
any raised exception becomes a 500 whose body interpolates `str(e)`. -/
def lambda_handler (env : Env) (c : Collab) (ev : ScanEvent) : List Call × Response :=
  match dispatch env c ev with
  | (t, .ok r) => (t, r)
  | (t, .error e) => (t, ⟨500, jsonDumps ("Error processing event: " ++ e)⟩)

/-- The handler as invoked at a given wall-clock dispatch time.  The source
reads no clock during a dispatch — `timestamp_epoch` is fixed at module load
(handler.py line 19) — so the dispatch-time argument is unused, exactly as in
the source. -/
def lambda_handler_at (dispatchTime : Nat) (env : Env) (c : Collab) (ev : ScanEvent) :
    List Call × Response :=
  lambda_handler env c ev

/-- Messages of the SNS publish calls of a trace, in order. -/
def publishMessages (t : List Call) : List String :=
  t.filterMap fun c =>
    match c with
    | Call.publishCall _ _ m => some m
    | _ => none

/-- Topic ARNs of the SNS publish calls of a trace, in order. -/
def publishTopics (t : List Call) : List String :=
  t.filterMap fun c =>
    match c with
    | Call.publishCall a _ _ => some a
    | _ => none

/-- Number of S3 copy calls in a trace. -/
def countCopies (t : List Call) : Nat :=
  (t.filter fun c => match c with | Call.copyCall .. => true | _ => false).length

/-- Number of S3 delete calls in a trace. -/
def countDeletes (t : List Call) : Nat :=
  (t.filter fun c => match c with | Call.deleteCall .. => true | _ => false).length

/-- A concrete environment used by the concrete-input theorems below. -/
def envA : Env :=
  { LANDING_BUCKET_NAME := "landing-bucket"
    QUARANTINE_BUCKET := "quarantine-bucket"
    AP_NOTIFICATION_TOPIC_ARN := "arn:aws:sns:eu-west-2:123456789012:ap-ops"
    NOTIFICATION_TOPIC_ARN := "arn:aws:sns:eu-west-2:123456789012:default-uploader"
    timestamp_epoch := 1700000000 }

/-- Collaborators that all succeed; the target-bucket secret is
`bucketX/prefix`. -/
def okCollab : Collab :=
  { getSecret := fun _ => .ok "bucketX/prefix"
    copyObject := fun _ _ _ _ _ => .ok ()
    deleteObject := fun _ _ => .ok ()
    publish := fun _ _ _ => .ok ()
    accountId := .ok "123456789012" }

/-- Like `okCollab` but the S3 copy raises with text `boom`. -/
def copyFailCollab : Collab :=
  { okCollab with copyObject := fun _ _ _ _ _ => .error "boom" }

/-- Like `okCollab` but the target-bucket secret has no slash (`bucketX`). -/
def noSlashSecretCollab : Collab :=
  { okCollab with getSecret := fun _ => .ok "bucketX" }

/-- Clean scan event for `supplierA/file.csv`. -/
def evClean : ScanEvent :=
  { scanStatus := some "COMPLETED", scanResultStatus := some "NO_THREATS_FOUND"
    threats := [], bucketName := some "landing-bucket"
    objectKey := some "supplierA/file.csv" }

/-- Clean scan event with a nested key `supplierA/sub/dir/file.csv`. -/
def evNested : ScanEvent :=
  { evClean with objectKey := some "supplierA/sub/dir/file.csv" }

/-- Clean scan event for the time-partitioned supplier `essex-police`. -/
def evEssex : ScanEvent :=
  { evClean with objectKey := some "essex-police/file.csv" }

/-- Clean scan event whose object key has no path separator. -/
def evNoSep : ScanEvent :=
  { evClean with objectKey := some "no-separator-key" }

/-- Infected scan event with one detected threat. -/
def evInfected : ScanEvent :=
  { scanStatus := some "COMPLETED", scanResultStatus := some "THREATS_FOUND"
    threats := ["trojan-x"], bucketName := some "landing-bucket"
    objectKey := some "supplier-a/file.txt" }

/-- Unsupported-file scan event. -/
def evUnsupported : ScanEvent :=
  { scanStatus := some "SKIPPED", scanResultStatus := some "UNSUPPORTED"
    threats := [], bucketName := some "landing-bucket"
    objectKey := some "acme/weird.xyz" }

/-- SKIPPED event whose result status is neither ACCESS_DENIED nor
UNSUPPORTED. -/
def evSkippedOther : ScanEvent :=
  { scanStatus := some "SKIPPED", scanResultStatus := some "WEIRD"
    threats := [], bucketName := some "landing-bucket"
    objectKey := some "acme/file.csv" }

/-- Boolean test that `needle` starts `hay` (character lists). -/
def leadsChars : List Char → List Char → Bool
  | [], _ => true
  | _ :: _, [] => false
  | a :: as, b :: bs => a = b && leadsChars as bs

/-- Boolean substring test on character lists. -/
def infixChars (needle : List Char) : List Char → Bool
  | [] => leadsChars needle []
  | c :: cs => leadsChars needle (c :: cs) || infixChars needle cs

/-- Boolean substring test on strings. -/
def strContainsStr (hay needle : String) : Bool := infixChars needle.data hay.data

theorem leadsChars_self_append (n post : List Char) : leadsChars n (n ++ post) = true := by
  induction n with
  | nil => rfl
  | cons a as ih => simp [leadsChars, ih]

theorem infixChars_of_leads (n l : List Char) (h : leadsChars n l = true) :
    infixChars n l = true := by
  cases l with
  | nil => exact h
  | cons c cs => simp [infixChars, h]

theorem infixChars_tail (n : List Char) (c : Char) (cs : List Char)
    (h : infixChars n cs = true) : infixChars n (c :: cs) = true := by
  simp [infixChars, h]

theorem infixChars_mid (pre n post : List Char) :
    infixChars n (pre ++ (n ++ post)) = true := by
  induction pre with
  | nil => exact infixChars_of_leads _ _ (leadsChars_self_append n post)
  | cons c cs ih => exact infixChars_tail _ _ _ ih

/-- A string occurring literally between two others is a substring. -/
theorem strContains_mid (a k b : String) : strContainsStr (a ++ k ++ b) k = true := by
  show infixChars k.data (a ++ k ++ b).data = true
  rw [String.data_append, String.data_append, List.append_assoc]
  exact infixChars_mid _ _ _

/-- On the Clean path the handler's calls and error come from
`process_no_threats_found_file`, and any raised error becomes the 500
response of the `except` block. -/
theorem lambda_handler_clean_routes (env : Env) (c : Collab) (ev : ScanEvent)
    (h1 : ev.scanStatus = some "COMPLETED")
    (h2 : ev.scanResultStatus = some "NO_THREATS_FOUND") :
    (lambda_handler env c ev).1 =
      (process_no_threats_found_file env c ev.bucketName ev.objectKey).1 ∧
    (∀ e, (process_no_threats_found_file env c ev.bucketName ev.objectKey).2 = some e →
      (lambda_handler env c ev).2 = ⟨500, jsonDumps ("Error processing event: " ++ e)⟩) := by
  unfold lambda_handler dispatch
  rw [h1, h2]
  simp only [if_pos rfl]
  rcases hp : process_no_threats_found_file env c ev.bucketName ev.objectKey with ⟨t, err⟩
  cases err with
  | none => exact ⟨rfl, by intro e he; simp at he⟩
  | some e0 =>
      refine ⟨rfl, ?_⟩
      intro e he
      injection he with he'
      subst he'
      rfl

/-- Exhaustive shape of the call trace of `process_no_threats_found_file`:
it is empty, a secret fetch alone, a secret fetch then an attempted copy
that raised, or a secret fetch, a successful copy and then a delete — the
copy always sources from the landing bucket and a delete is only ever
issued after a copy that succeeded. -/
theorem process_clean_shape (env : Env) (c : Collab) (bn okey : Option String) :
    (process_no_threats_found_file env c bn okey).1 = [] ∨
    (∃ sid, (process_no_threats_found_file env c bn okey).1 = [Call.getSecretCall sid]) ∨
    (∃ sid k db dk e, okey = some k ∧
      (process_no_threats_found_file env c bn okey).1 =
        [Call.getSecretCall sid,
         Call.copyCall db env.LANDING_BUCKET_NAME k dk "bucket-owner-full-control"] ∧
      c.copyObject db env.LANDING_BUCKET_NAME k dk "bucket-owner-full-control" = .error e ∧
      (process_no_threats_found_file env c bn okey).2 = some e) ∨
    (∃ sid k db dk, okey = some k ∧
      (process_no_threats_found_file env c bn okey).1 =
        [Call.getSecretCall sid,
         Call.copyCall db env.LANDING_BUCKET_NAME k dk "bucket-owner-full-control",
         Call.deleteCall env.LANDING_BUCKET_NAME k] ∧
      c.copyObject db env.LANDING_BUCKET_NAME k dk "bucket-owner-full-control" = .ok ()) := by
  unfold process_no_threats_found_file
  cases okey with
  | none => exact Or.inl rfl
  | some k =>
    by_cases hs : hasSlash k
    · simp only [hs, if_pos]
      rcases hg : c.getSecret ("ingestion/sftp/" ++ (splitFirst k).1 ++ "/target-bucket") with e | tb
      · exact Or.inr (Or.inl ⟨_, rfl⟩)
      · by_cases ht : hasSlash tb
        · simp only [ht, if_pos]
          rcases hc : c.copyObject (splitFirst tb).1 env.LANDING_BUCKET_NAME k _
              "bucket-owner-full-control" with e | u
          · exact Or.inr (Or.inr (Or.inl ⟨_, k, _, _, e, rfl, rfl, hc, rfl⟩))
          · cases u
            rcases hd : c.deleteObject env.LANDING_BUCKET_NAME k with e | u
            · exact Or.inr (Or.inr (Or.inr ⟨_, k, _, _, rfl, rfl, hc⟩))
            · cases u
              exact Or.inr (Or.inr (Or.inr ⟨_, k, _, _, rfl, rfl, hc⟩))
        · simp only [ht, if_neg, Bool.false_eq_true, not_false_iff]
          exact Or.inr (Or.inl ⟨_, rfl⟩)
    · simp only [hs]
      exact Or.inl rfl

/-- Module state with a different load-time timestamp (process start at
epoch second 100). -/
def env100 : Env := { envA with timestamp_epoch := 100 }

/-- C1: On an Infected dispatch (COMPLETED / THREATS_FOUND) the handler
issues NO quarantine copy and NO delete — the object-store calls of
handler.py lines 202-207 are commented out — while it does send exactly the
two notifications (supplier topic, then operations topic) and returns 200.
This evaluates the code at the failing input of the claim, exhibiting the
divergence from the specified copy-then-delete-then-notify behaviour. -/
theorem C1_infected_no_quarantine_calls :
    countCopies (lambda_handler envA okCollab evInfected).1 = 0 ∧
    countDeletes (lambda_handler envA okCollab evInfected).1 = 0 ∧
    publishTopics (lambda_handler envA okCollab evInfected).1 =
      ["arn:aws:sns:eu-west-2:123456789012:transfer-service-supplier-a",
       "arn:aws:sns:eu-west-2:123456789012:ap-ops"] ∧
    (lambda_handler envA okCollab evInfected).2.statusCode = 200 := by decide

/-- C2 counterexample: a Clean dispatch whose S3 copy raises with internal
text `boom` yields a 500 whose response body interpolates that exception
text verbatim (handler.py line 119), so internal error details DO appear in
the response body, contradicting the claim. -/
theorem C2_counterexample :
    (lambda_handler envA copyFailCollab evClean).2 =
      ⟨500, jsonDumps "Error processing event: boom"⟩ ∧
    strContainsStr (lambda_handler envA copyFailCollab evClean).2.body "boom" = true := by
  decide

/-- C2 amended: any exception raised during processing is caught at the
top-level boundary and mapped to a 500 whose body is
`json.dumps("Error processing event: " + str(e))` — i.e. the exception text
appears in the response body (it is not confined to the log). -/
theorem C2_amended_error_body (env : Env) (c : Collab) (ev : ScanEvent)
    (t : List Call) (e : String) (h : dispatch env c ev = (t, .error e)) :
    lambda_handler env c ev =
      (t, ⟨500, jsonDumps ("Error processing event: " ++ e)⟩) := by
  unfold lambda_handler
  rw [h]

/-- Witness for `C2_amended_error_body` at a concrete failing copy. -/
theorem C2_amended_error_body_witness :
    lambda_handler envA copyFailCollab evClean =
      ([Call.getSecretCall "ingestion/sftp/supplierA/target-bucket",
        Call.copyCall "bucketX" "landing-bucket" "supplierA/file.csv" "prefix/file.csv"
          "bucket-owner-full-control"],
       ⟨500, jsonDumps "Error processing event: boom"⟩) :=
  C2_amended_error_body envA copyFailCollab evClean _ "boom" rfl

/-- C4: on a Clean dispatch whose target-bucket secret has no path
separator (`bucketX`), path resolution does NOT succeed: `bucket_prefix`
is never assigned and the unconditional log statement at handler.py line
166 raises `NameError`, so no copy is attempted and the handler returns
500.  The claim (destination = raw bucket, key unchanged) matches the dead
assignment at line 164 — the spec is the evident intent and the
out-of-branch log line is the slip. -/
theorem C4_no_slash_secret_name_error :
    lambda_handler envA noSlashSecretCollab evClean =
      ([Call.getSecretCall "ingestion/sftp/supplierA/target-bucket"],
       ⟨500, jsonDumps "Error processing event: name 'bucket_prefix' is not defined"⟩) := by
  decide

/-- C5 counterexample: for supplier `essex-police` (in the time-partitioned
set) with target secret `bucketX/prefix`, the destination key is NOT
`prefix/file.csv` — a `file_land_timestamp=` segment is interposed — so the
claim as universally stated over all suppliers fails. -/
theorem C5_counterexample :
    (lambda_handler envA okCollab evEssex).1 =
      [Call.getSecretCall "ingestion/sftp/essex-police/target-bucket",
       Call.copyCall "bucketX" "landing-bucket" "essex-police/file.csv"
         "prefix/file_land_timestamp=1700000000/file.csv" "bucket-owner-full-control",
       Call.deleteCall "landing-bucket" "essex-police/file.csv"] ∧
    ("prefix/file_land_timestamp=1700000000/file.csv" : String) ≠ "prefix/file.csv" := by
  decide

/-- C7 counterexample: with the module loaded at epoch second 100, a
dispatch at wall-clock time 200 still stamps `file_land_timestamp=100`:
the digits are the module-load timestamp (handler.py line 19), not the
epoch seconds at dispatch time. -/
theorem C7_counterexample :
    (lambda_handler_at 200 env100 okCollab evEssex).1 =
      [Call.getSecretCall "ingestion/sftp/essex-police/target-bucket",
       Call.copyCall "bucketX" "landing-bucket" "essex-police/file.csv"
         "prefix/file_land_timestamp=100/file.csv" "bucket-owner-full-control",
       Call.deleteCall "landing-bucket" "essex-police/file.csv"] ∧
    strContainsStr "prefix/file_land_timestamp=100/file.csv" "file_land_timestamp=200" = false := by
  decide

set_option maxRecDepth 4000 in
/-- C8 counterexample: the Unsupported notification message does not
mention the object key at all, and neither Infected notification message
mentions the detected threat identifier `trojan-x` (threats are only
logged, never interpolated into a message). -/
theorem C8_counterexample :
    (publishMessages (lambda_handler envA okCollab evUnsupported).1).map
      (fun m => strContainsStr m "acme/weird.xyz") = [false] ∧
    (publishMessages (lambda_handler envA okCollab evInfected).1).map
      (fun m => strContainsStr m "trojan-x") = [false, false] := by decide

/-- C3: on every Clean dispatch (COMPLETED / NO_THREATS_FOUND) the source
object is never deleted before a successful copy: any delete in the call
trace comes after a copy that the object store confirmed, and if the
attempted copy raised then no delete is issued and the response is a 500. -/
theorem C3_clean_copy_before_delete (env : Env) (c : Collab) (ev : ScanEvent)
    (h1 : ev.scanStatus = some "COMPLETED")
    (h2 : ev.scanResultStatus = some "NO_THREATS_FOUND") :
    (∀ b k, Call.deleteCall b k ∈ (lambda_handler env c ev).1 →
      ∃ sid db dk, (lambda_handler env c ev).1 =
        [Call.getSecretCall sid,
         Call.copyCall db env.LANDING_BUCKET_NAME k dk "bucket-owner-full-control",
         Call.deleteCall b k] ∧
        c.copyObject db env.LANDING_BUCKET_NAME k dk "bucket-owner-full-control" = .ok ()) ∧
    (∀ db sb sk dk acl e, Call.copyCall db sb sk dk acl ∈ (lambda_handler env c ev).1 →
      c.copyObject db sb sk dk acl = .error e →
      (∀ b k, Call.deleteCall b k ∉ (lambda_handler env c ev).1) ∧
      (lambda_handler env c ev).2.statusCode = 500) := by
  obtain ⟨htr, herr⟩ := lambda_handler_clean_routes env c ev h1 h2
  rcases process_clean_shape env c ev.bucketName ev.objectKey with h | ⟨sid, h⟩ |
    ⟨sid, k0, db0, dk0, e0, hk, h, hc, he⟩ | ⟨sid, k0, db0, dk0, hk, h, hc⟩
  · constructor
    · intro b k hm
      rw [htr, h] at hm
      simp at hm
    · intro db sb sk dk acl e hm hres
      rw [htr, h] at hm
      simp at hm
  · constructor
    · intro b k hm
      rw [htr, h] at hm
      simp at hm
    · intro db sb sk dk acl e hm hres
      rw [htr, h] at hm
      simp at hm
  · constructor
    · intro b k hm
      rw [htr, h] at hm
      simp at hm
    · intro db sb sk dk acl e hm hres
      refine ⟨?_, ?_⟩
      · intro b k hm2
        rw [htr, h] at hm2
        simp at hm2
      · rw [herr e0 he]
  · constructor
    · intro b k hm
      rw [htr, h] at hm
      simp at hm
      obtain ⟨rfl, rfl⟩ := hm
      exact ⟨sid, db0, dk0, by rw [htr, h], hc⟩
    · intro db sb sk dk acl e hm hres
      rw [htr, h] at hm
      simp at hm
      obtain ⟨rfl, rfl, rfl, rfl, rfl⟩ := hm
      rw [hc] at hres
      simp at hres

/-- Witness for `C3_clean_copy_before_delete`: a concrete Clean dispatch
whose copy raises ends in a 500. -/
theorem C3_clean_copy_before_delete_witness :
    (lambda_handler envA copyFailCollab evClean).2.statusCode = 500 :=
  ((C3_clean_copy_before_delete envA copyFailCollab evClean rfl rfl).2
    "bucketX" "landing-bucket" "supplierA/file.csv" "prefix/file.csv"
    "bucket-owner-full-control" "boom" (by decide) rfl).2

/-- C9: on a Clean dispatch the source bucket of both the copy and the
delete is the landing-bucket identifier from the environment, never the
event's `bucketName`: two events differing only in `bucketName` produce
identical call traces (identical copy and delete requests), and every copy
sources from — and every delete targets — `LANDING_BUCKET_NAME`. -/
theorem C9_bucket_name_not_used_for_store_calls (env : Env) (c : Collab)
    (ev : ScanEvent) (b1 b2 : Option String)
    (h1 : ev.scanStatus = some "COMPLETED")
    (h2 : ev.scanResultStatus = some "NO_THREATS_FOUND") :
    (lambda_handler env c { ev with bucketName := b1 }).1 =
      (lambda_handler env c { ev with bucketName := b2 }).1 ∧
    (∀ db sb sk dk acl,
      Call.copyCall db sb sk dk acl ∈ (lambda_handler env c { ev with bucketName := b1 }).1 →
      sb = env.LANDING_BUCKET_NAME) ∧
    (∀ b k, Call.deleteCall b k ∈ (lambda_handler env c { ev with bucketName := b1 }).1 →
      b = env.LANDING_BUCKET_NAME) := by
  obtain ⟨htr1, _⟩ := lambda_handler_clean_routes env c { ev with bucketName := b1 } h1 h2
  obtain ⟨htr2, _⟩ := lambda_handler_clean_routes env c { ev with bucketName := b2 } h1 h2
  refine ⟨?_, ?_, ?_⟩
  · rw [htr1, htr2]
    exact rfl
  · intro db sb sk dk acl hm
    rw [htr1] at hm
    rcases process_clean_shape env c ({ ev with bucketName := b1 } : ScanEvent).bucketName
        ({ ev with bucketName := b1 } : ScanEvent).objectKey with h | ⟨sid, h⟩ |
      ⟨sid, k0, db0, dk0, e0, hk, h, hc, he⟩ | ⟨sid, k0, db0, dk0, hk, h, hc⟩ <;>
      rw [h] at hm <;> simp at hm
    · exact hm.2.1
    · exact hm.2.1
  · intro b k hm
    rw [htr1] at hm
    rcases process_clean_shape env c ({ ev with bucketName := b1 } : ScanEvent).bucketName
        ({ ev with bucketName := b1 } : ScanEvent).objectKey with h | ⟨sid, h⟩ |
      ⟨sid, k0, db0, dk0, e0, hk, h, hc, he⟩ | ⟨sid, k0, db0, dk0, hk, h, hc⟩ <;>
      rw [h] at hm <;> simp at hm
    exact hm.1

/-- Witness for `C9_bucket_name_not_used_for_store_calls`: changing the
event's `bucketName` leaves the call trace unchanged. -/
theorem C9_bucket_name_not_used_for_store_calls_witness :
    (lambda_handler envA okCollab { evClean with bucketName := some "landing-bucket" }).1 =
      (lambda_handler envA okCollab { evClean with bucketName := some "other-bucket" }).1 :=
  (C9_bucket_name_not_used_for_store_calls envA okCollab evClean
    (some "landing-bucket") (some "other-bucket") rfl rfl).1

/-- C10: a SKIPPED event whose result status is neither ACCESS_DENIED nor
UNSUPPORTED performs no collaborator call at all and returns 200 with the
generic diagnostic body naming the status pair — the same fall-through
return (handler.py lines 108-113) that an unrecognized scanStatus takes. -/
theorem C10_skipped_other_fall_through (env : Env) (c : Collab) (ev : ScanEvent)
    (h1 : ev.scanStatus = some "SKIPPED")
    (h2 : ev.scanResultStatus ≠ some "ACCESS_DENIED")
    (h3 : ev.scanResultStatus ≠ some "UNSUPPORTED") :
    lambda_handler env c ev =
      ([], ⟨200, jsonDumps ("Successfully processed scan status: " ++ pyStr ev.scanStatus ++
        ", result: " ++ pyStr ev.scanResultStatus)⟩) := by
  unfold lambda_handler dispatch
  rw [h1]
  rw [if_neg (by simp), if_pos rfl, if_neg h2, if_neg h3]

/-- Witness for `C10_skipped_other_fall_through` at a concrete SKIPPED /
WEIRD event. -/
theorem C10_skipped_other_fall_through_witness :
    lambda_handler envA okCollab evSkippedOther =
      ([], ⟨200, jsonDumps "Successfully processed scan status: SKIPPED, result: WEIRD"⟩) :=
  C10_skipped_other_fall_through envA okCollab evSkippedOther rfl
    (by decide) (by decide)

/-- C6: a Clean dispatch whose object key has no path separator fails —
`uploaded_object` is never assigned, handler.py line 150 raises `NameError`
— and the failure is surfaced as a 500 response with no collaborator call
(neither an unhandled crash nor a silent success). -/
theorem C6_no_separator_500 (env : Env) (c : Collab) (ev : ScanEvent) (k : String)
    (h1 : ev.scanStatus = some "COMPLETED")
    (h2 : ev.scanResultStatus = some "NO_THREATS_FOUND")
    (hk : ev.objectKey = some k) (hs : hasSlash k = false) :
    lambda_handler env c ev =
      ([], ⟨500, jsonDumps "Error processing event: name 'uploaded_object' is not defined"⟩) := by
  obtain ⟨htr, herr⟩ := lambda_handler_clean_routes env c ev h1 h2
  have hp : process_no_threats_found_file env c ev.bucketName ev.objectKey =
      ([], some "name 'uploaded_object' is not defined") := by
    rw [hk]
    unfold process_no_threats_found_file
    simp [hs]
  rw [Prod.ext_iff]
  exact ⟨by rw [htr, hp], herr _ (by rw [hp])⟩

/-- Witness for `C6_no_separator_500` at key `no-separator-key`. -/
theorem C6_no_separator_500_witness :
    lambda_handler envA okCollab evNoSep =
      ([], ⟨500, jsonDumps "Error processing event: name 'uploaded_object' is not defined"⟩) :=
  C6_no_separator_500 envA okCollab evNoSep "no-separator-key" rfl rfl rfl (by decide)

/-- C5 amended: for a Clean dispatch with object key `supplier/rem` and a
target-bucket secret `bucket/pfx`, PROVIDED the supplier is not in the
time-partitioned set, the attempted copy goes to bucket `bucket` with
destination key `pfx ++ "/" ++ fileBaseName`, where `fileBaseName` is the
last path segment (nested folders are flattened). -/
theorem C5_amended_default_layout (env : Env) (c : Collab) (ev : ScanEvent)
    (k supplier rem tb bucket pfx : String)
    (h1 : ev.scanStatus = some "COMPLETED")
    (h2 : ev.scanResultStatus = some "NO_THREATS_FOUND")
    (hk : ev.objectKey = some k)
    (hs : hasSlash k = true)
    (hsp : splitFirst k = (supplier, rem))
    (hpart : partitionedSuppliers.contains supplier = false)
    (hsec : c.getSecret ("ingestion/sftp/" ++ supplier ++ "/target-bucket") = .ok tb)
    (ht : hasSlash tb = true)
    (htb : splitFirst tb = (bucket, pfx)) :
    ((lambda_handler env c ev).1.take 2) =
      [Call.getSecretCall ("ingestion/sftp/" ++ supplier ++ "/target-bucket"),
       Call.copyCall bucket env.LANDING_BUCKET_NAME k
         (pfx ++ "/" ++ (if hasSlash rem then pyLastSeg rem else rem))
         "bucket-owner-full-control"] := by
  obtain ⟨htr, _⟩ := lambda_handler_clean_routes env c ev h1 h2
  rw [htr, hk]
  simp only [process_no_threats_found_file]
  rw [hsp]
  simp only [hs, if_pos]
  rw [hsec]
  simp only [ht, if_pos, htb, hpart]
  simp only [Bool.false_eq_true, if_neg, if_false]
  rcases c.copyObject bucket env.LANDING_BUCKET_NAME k
      (pfx ++ "/" ++ (if hasSlash rem then pyLastSeg rem else rem))
      "bucket-owner-full-control" with e | u
  · rfl
  · rcases c.deleteObject env.LANDING_BUCKET_NAME k with e | u <;> rfl

/-- Witness for `C5_amended_default_layout`: nested key
`supplierA/sub/dir/file.csv` with secret `bucketX/prefix` copies to
`bucketX` under key `prefix/file.csv`. -/
theorem C5_amended_default_layout_witness :
    ((lambda_handler envA okCollab evNested).1.take 2) =
      [Call.getSecretCall ("ingestion/sftp/" ++ "supplierA" ++ "/target-bucket"),
       Call.copyCall "bucketX" "landing-bucket" "supplierA/sub/dir/file.csv"
         ("prefix" ++ "/" ++ (if hasSlash "sub/dir/file.csv" then pyLastSeg "sub/dir/file.csv" else "sub/dir/file.csv"))
         "bucket-owner-full-control"] :=
  C5_amended_default_layout envA okCollab evNested "supplierA/sub/dir/file.csv"
    "supplierA" "sub/dir/file.csv" "bucketX/prefix" "bucketX" "prefix"
    rfl rfl rfl (by decide) (by decide) (by decide) rfl (by decide) (by decide)

/-- C7 amended: for a Clean dispatch whose supplier is in the
time-partitioned set, the attempted copy's destination key interposes a
`file_land_timestamp=` segment between the prefix and the base name, whose
digits are `env.timestamp_epoch` — the non-negative epoch-seconds captured
once at module load — independent of the wall-clock dispatch time (the
`dispatchTime` argument does not occur in the conclusion). -/
theorem C7_amended_partitioned_key (dispatchTime : Nat) (env : Env) (c : Collab)
    (ev : ScanEvent) (k supplier rem tb bucket pfx : String)
    (h1 : ev.scanStatus = some "COMPLETED")
    (h2 : ev.scanResultStatus = some "NO_THREATS_FOUND")
    (hk : ev.objectKey = some k)
    (hs : hasSlash k = true)
    (hsp : splitFirst k = (supplier, rem))
    (hpart : partitionedSuppliers.contains supplier = true)
    (hsec : c.getSecret ("ingestion/sftp/" ++ supplier ++ "/target-bucket") = .ok tb)
    (ht : hasSlash tb = true)
    (htb : splitFirst tb = (bucket, pfx)) :
    ((lambda_handler_at dispatchTime env c ev).1.take 2) =
      [Call.getSecretCall ("ingestion/sftp/" ++ supplier ++ "/target-bucket"),
       Call.copyCall bucket env.LANDING_BUCKET_NAME k
         (pfx ++ "/file_land_timestamp=" ++ toString env.timestamp_epoch ++ "/" ++
           (if hasSlash rem then pyLastSeg rem else rem))
         "bucket-owner-full-control"] := by
  obtain ⟨htr, _⟩ := lambda_handler_clean_routes env c ev h1 h2
  show ((lambda_handler env c ev).1.take 2) = _
  rw [htr, hk]
  simp only [process_no_threats_found_file]
  rw [hsp]
  simp only [hs, if_pos]
  rw [hsec]
  simp only [ht, if_pos, htb, hpart, if_true]
  rcases c.copyObject bucket env.LANDING_BUCKET_NAME k
      (pfx ++ "/file_land_timestamp=" ++ toString env.timestamp_epoch ++ "/" ++
        (if hasSlash rem then pyLastSeg rem else rem))
      "bucket-owner-full-control" with e | u
  · rfl
  · rcases c.deleteObject env.LANDING_BUCKET_NAME k with e | u <;> rfl

/-- Witness for `C7_amended_partitioned_key` at supplier `essex-police`
(module loaded at epoch 100, dispatched at wall-clock 200). -/
theorem C7_amended_partitioned_key_witness :
    ((lambda_handler_at 200 env100 okCollab evEssex).1.take 2) =
      [Call.getSecretCall ("ingestion/sftp/" ++ "essex-police" ++ "/target-bucket"),
       Call.copyCall "bucketX" "landing-bucket" "essex-police/file.csv"
         ("prefix" ++ "/file_land_timestamp=" ++ toString env100.timestamp_epoch ++ "/" ++
           (if hasSlash "file.csv" then pyLastSeg "file.csv" else "file.csv"))
         "bucket-owner-full-control"] :=
  C7_amended_partitioned_key 200 env100 okCollab evEssex "essex-police/file.csv"
    "essex-police" "file.csv" "bucketX/prefix" "bucketX" "prefix"
    rfl rfl rfl (by decide) (by decide) (by decide) rfl (by decide) (by decide)

/-- `generate_topic_arn` never publishes (its trace is at most one STS
call). -/
theorem publishMessages_topic_arn (env : Env) (c : Collab) (s : Option String) :
    publishMessages (generate_topic_arn env c s).1 = [] := by
  unfold generate_topic_arn
  by_cases h : pyTruthy s
  · simp only [h, if_pos]
    cases c.accountId <;> simp [publishMessages]
  · simp [h, publishMessages]

/-- C8 amended: the Infected (both audiences), ScanFailed and AccessDenied
notification bodies each interpolate the object key; the Unsupported body
is the fixed `unsupported_message`, which takes no parameter — it does not
mention the object key — and no body anywhere interpolates the detected
threat identifiers (the `threats` argument is only logged). -/
theorem C8_amended_message_parameterization (env : Env) (c : Collab)
    (bn : Option String) (k : String) (threats : List String) :
    ((publishMessages (process_threats_found_file env c bn (some k) threats).1).all
      (fun m => strContainsStr m k)) = true ∧
    ((publishMessages (process_failed_scan env c (some k)).1).all
      (fun m => strContainsStr m k)) = true ∧
    ((publishMessages (process_access_denied env c (some k)).1).all
      (fun m => strContainsStr m k)) = true ∧
    ((publishMessages (process_unsupported_file env c (some k)).1).all
      (fun m => m == unsupported_message)) = true := by
  refine ⟨?_, ?_, ?_, ?_⟩
  · have ht1 := publishMessages_topic_arn env c
      (if hasSlash k = true then some (splitFirst k).1 else none)
    simp only [process_threats_found_file]
    split <;> (try split) <;> (try split) <;>
      simp_all [publishMessages, threats_found_user_message, threats_found_ap_message,
        strContains_mid]
  · have ht1 := publishMessages_topic_arn env c
      (if hasSlash k = true then some (splitFirst k).1 else none)
    simp only [process_failed_scan]
    split <;> (try split) <;>
      simp_all [publishMessages, failed_scan_message, strContains_mid]
  · simp only [process_access_denied]
    split <;> simp [publishMessages, pyStr, access_denied_message, strContains_mid]
  · have ht1 := publishMessages_topic_arn env c
      (if hasSlash k = true then some (splitFirst k).1 else none)
    simp only [process_unsupported_file]
    split <;> (try split) <;>
      simp_all [publishMessages]
